import Mathlib

/-
Verification of the matric-auth claims-scoped secret access engine.

The repository configures three Vault ACL policy templates
(src/docker/vault/policies/tenant-access.hcl, also written verbatim by
create_tenant_policies in src/scripts/enable-account-console.sh) and three
JWT roles binding each policy to a role with token TTLs
(create_jwt_roles in src/scripts/enable-account-console.sh).

Paths are modelled as lists of path segments (the HCL path
"secret/data/tenants/T/*" grants access, per segment, under
["secret", "data", "tenants", T]); a trailing "/*" in a source pattern is
prefix matching on the segments before it, and placeholder segments
(Vault identity templating, written here as PatPart.claim "tenant_id" /
"user_id" for the source's
identity.entity.aliases.AUTH_JWT_ACCESSOR.metadata.tenant_id / user_id)
are substituted from the authenticated identity's claims.

The decision engine itself (authorize / issue / renew / revoke) is vendor
behaviour not present under src/; those operations are modelled from the
spec (sections 4.4, 4.5, 4.6), as marked on each definition.
-/

set_option maxHeartbeats 1000000

namespace MatricAuth

/-- Secret-store capabilities, exactly the capability names appearing in
the source policies (tenant-access.hcl). -/
inductive Cap where
  | create
  | read
  | update
  | delete
  | list
  deriving DecidableEq

/-- One part of a policy path pattern: a literal segment, or a placeholder
substituted from an identity claim (Vault identity templating in the
source, e.g. the tenant_id metadata alias). -/
inductive PatPart where
  | lit (s : String)
  | claim (c : String)
  deriving DecidableEq

/-- A path stanza of a policy: pattern segments plus capability set. -/
structure PathPattern where
  parts : List PatPart
  caps : List Cap
  deriving DecidableEq

/-- An ordered list of path stanzas: one source policy document. -/
structure PolicyTemplate where
  patterns : List PathPattern
  deriving DecidableEq

/-- A resolved grant: concrete path segments (matched as a
segment-aware path pre-fix) plus capability set. -/
structure Grant where
  pre : List String
  caps : List Cap
  deriving DecidableEq

/-- Canonical identity projected from a verified token: subject plus the
custom claims tenant_id and user_id (claim_mappings in
create_jwt_roles: tenant_id=tenant_id, user_id=user_id). -/
structure Identity where
  subject : String
  tenant_id : String
  user_id : String
  deriving DecidableEq

/-- The three service roles configured by create_jwt_roles
(matric-service, matric-admin-service, matric-monitor-service). -/
inductive Role where
  | standardService
  | adminService
  | monitorService
  deriving DecidableEq

/-- Full capability list of the source stanzas written
capabilities = ["create", "read", "update", "delete", "list"]. -/
def capsCRUDL : List Cap := [.create, .read, .update, .delete, .list]

/-- The tenant-access policy, transcribed stanza by stanza from
src/docker/vault/policies/tenant-access.hcl lines 1-43. -/
def tenantAccessTemplate : PolicyTemplate :=
  ⟨[ ⟨[.lit "secret", .lit "data", .lit "tenants", .claim "tenant_id"], capsCRUDL⟩,
     ⟨[.lit "secret", .lit "metadata", .lit "tenants", .claim "tenant_id"], [.list]⟩,
     ⟨[.lit "secret", .lit "data", .lit "users", .claim "user_id"], capsCRUDL⟩,
     ⟨[.lit "secret", .lit "metadata", .lit "users", .claim "user_id"], [.list]⟩,
     ⟨[.lit "secret", .lit "data", .lit "common", .lit "config"], [.read]⟩,
     ⟨[.lit "secret", .lit "metadata"], [.list]⟩,
     ⟨[.lit "auth", .lit "token", .lit "lookup-self"], [.read]⟩,
     ⟨[.lit "auth", .lit "token", .lit "renew-self"], [.update]⟩ ]⟩

/-- The service-admin policy, transcribed from
src/docker/vault/policies/tenant-access.hcl lines 82-122. -/
def serviceAdminTemplate : PolicyTemplate :=
  ⟨[ ⟨[.lit "secret", .lit "data", .lit "tenants"], capsCRUDL⟩,
     ⟨[.lit "secret", .lit "data", .lit "users"], capsCRUDL⟩,
     ⟨[.lit "secret", .lit "data", .lit "common"], capsCRUDL⟩,
     ⟨[.lit "secret", .lit "metadata"], [.list, .read]⟩,
     ⟨[.lit "auth", .lit "token", .lit "lookup-self"], [.read]⟩,
     ⟨[.lit "auth", .lit "token", .lit "renew-self"], [.update]⟩,
     ⟨[.lit "sys", .lit "health"], [.read]⟩,
     ⟨[.lit "sys", .lit "auth"], [.read]⟩ ]⟩

/-- The read-only policy for monitoring services, transcribed from
src/docker/vault/policies/tenant-access.hcl lines 43-82. -/
def readOnlyTemplate : PolicyTemplate :=
  ⟨[ ⟨[.lit "secret", .lit "data"], [.read]⟩,
     ⟨[.lit "secret", .lit "metadata"], [.list, .read]⟩,
     ⟨[.lit "auth", .lit "token", .lit "lookup-self"], [.read]⟩,
     ⟨[.lit "auth", .lit "token", .lit "renew-self"], [.update]⟩,
     ⟨[.lit "sys", .lit "health"], [.read]⟩,
     ⟨[.lit "sys", .lit "metrics"], [.read]⟩,
     ⟨[.lit "sys", .lit "auth"], [.read]⟩,
     ⟨[.lit "sys", .lit "mounts"], [.read]⟩ ]⟩

/-- Role-to-policy binding from create_jwt_roles: matric-service carries
token_policies tenant-access, matric-admin-service carries service-admin,
matric-monitor-service carries read-only. -/
def roleTemplate : Role → PolicyTemplate
  | .standardService => tenantAccessTemplate
  | .adminService => serviceAdminTemplate
  | .monitorService => readOnlyTemplate

/-- token_ttl per role in minutes, from create_jwt_roles
(15m, 15m, 30m). -/
def roleTtl : Role → Nat
  | .standardService => 15
  | .adminService => 15
  | .monitorService => 30

/-- token_max_ttl per role in minutes, from create_jwt_roles
(1h, 1h, 2h). -/
def roleMaxTtl : Role → Nat
  | .standardService => 60
  | .adminService => 60
  | .monitorService => 120

/-- Value of a substitutable claim on an Identity: the claim_mappings line
of create_jwt_roles maps exactly tenant_id and user_id into token
metadata (preferred_username is mapped too but referenced by no policy). -/
def claimValue (i : Identity) : String → Option String
  | "tenant_id" => some i.tenant_id
  | "user_id" => some i.user_id
  | _ => none

/-- Substitute one pattern part against an identity's claims. -/
def substPart (i : Identity) : PatPart → Option String
  | .lit s => some s
  | .claim c => claimValue i c

/-- Modelled from the spec (4.4 Template Resolver): substitute every
placeholder of one pattern; a pattern referencing an absent claim is
dropped (yields none). The pattern data itself is from the source
policies above. -/
def resolvePattern (i : Identity) (p : PathPattern) : Option Grant :=
  match p.parts.mapM (substPart i) with
  | some segs => some ⟨segs, p.caps⟩
  | none => none

/-- Modelled from the spec (4.4): resolve an identity against a template,
in template order, dropping unresolvable patterns. -/
def resolveTemplate (i : Identity) (t : PolicyTemplate) : List Grant :=
  t.patterns.filterMap (resolvePattern i)

/-- Modelled from the spec (4.4): resolve(identity, role) binds the role's
template and substitutes claims. -/
def resolve (i : Identity) (r : Role) : List Grant :=
  resolveTemplate i (roleTemplate r)

/-- Segment-aware path matching: the grant's concrete segments are an
initial segment of the requested path's segments. -/
def segPre (p path : List String) : Bool := decide (p <+: path)

/-- Capability membership in a grant's capability set. -/
def capMem (op : Cap) (cs : List Cap) : Bool := cs.any (fun c => decide (c = op))

/-- One grant authorizes (path, op): segment-aware path match and the
operation is in the grant's capability set. -/
def grantAllows (g : Grant) (path : List String) (op : Cap) : Bool :=
  segPre g.pre path && capMem op g.caps

/-- Modelled from the spec (4.5): some grant in the list authorizes the
request; first match wins (List.any short-circuits), deny otherwise. -/
def allowedByGrants (gs : List Grant) (path : List String) (op : Cap) : Bool :=
  gs.any (fun g => grantAllows g path op)

/-- Authorization decision outcome. -/
inductive Decision where
  | allow
  | deny
  deriving DecidableEq

/-- Modelled from the spec (data model): a scoped token bound to resolved
grants with TTL lifecycle state. Times are minutes on a wall clock. -/
structure ScopedToken where
  tokenId : Nat
  grants : List Grant
  issued_at : Nat
  ttl : Nat
  max_ttl : Nat
  expires_at : Nat
  renewable : Bool
  revoked : Bool
  deriving DecidableEq

/-- Modelled from the spec (4.6): issue runs resolution, stores the
result and starts the TTL countdown, with the role's configured
ttl and max_ttl (create_jwt_roles values). -/
def issue (i : Identity) (r : Role) (now : Nat) : ScopedToken :=
  ⟨0, resolve i r, now, roleTtl r, roleMaxTtl r, now + roleTtl r, true, false⟩

/-- Modelled from the spec (4.5 Authorization Decision Engine): deny if
revoked or expired at decision time, otherwise allow iff some grant
matches; deny-by-default, a total function into allow/deny. -/
def authorize (t : ScopedToken) (now : Nat) (path : List String) (op : Cap) : Decision :=
  if t.revoked then .deny
  else if t.expires_at ≤ now then .deny
  else if allowedByGrants t.grants path op then .allow
  else .deny

/-- Modelled from the spec (4.6): revocation flips the revoked flag;
idempotent and terminal. -/
def revoke (t : ScopedToken) : ScopedToken := { t with revoked := true }

/-- Modelled from the spec (4.6): renew fails on a revoked or
non-renewable token or past max_ttl from original issuance; otherwise it
extends expiry by the configured increment (the role ttl), capped at
max_ttl from original issuance. -/
def renew (t : ScopedToken) (now : Nat) : Option ScopedToken :=
  if t.revoked || !t.renewable || decide (t.issued_at + t.max_ttl < now) then none
  else some { t with expires_at := t.issued_at + min (now - t.issued_at + t.ttl) t.max_ttl }

/-- Literal segments of a placeholder-free pattern; none when the pattern
holds any placeholder. -/
def patLits : List PatPart → Option (List String)
  | [] => some []
  | .lit s :: rest => (patLits rest).map (fun l => s :: l)
  | .claim _ :: _ => none

/-- A path is covered by a common/shared stanza of a template: some
placeholder-free pattern of the template matches it (the stanzas of the
source tenant-access policy without a tenant_id/user_id placeholder:
common config, metadata root, token self paths). -/
def sharedCovers (t : PolicyTemplate) (path : List String) : Bool :=
  t.patterns.any (fun p =>
    match patLits p.parts with
    | some segs => segPre segs path
    | none => false)

/-- Modelled from the spec (8, scenario 1): the scenario template granting
tenants/{tenant_id}/* with create/read/update/delete/list and
common/config with read. -/
def scenarioTemplate : PolicyTemplate :=
  ⟨[ ⟨[.lit "tenants", .claim "tenant_id"], capsCRUDL⟩,
     ⟨[.lit "common", .lit "config"], [.read]⟩ ]⟩

/-- Load-time template errors (spec section 7 taxonomy). -/
inductive TemplateError where
  | templateSyntaxError
  deriving DecidableEq

/-- Modelled from the spec (4.3): the fixed whitelist of substitutable
claim names. -/
def placeholderWhitelist : List String := ["tenant_id", "user_id"]

/-- A pattern part is valid at load time: literal, or a whitelisted
placeholder. -/
def partOk : PatPart → Bool
  | .lit _ => true
  | .claim c => placeholderWhitelist.any (fun w => decide (w = c))

/-- Modelled from the spec (4.3 Policy Template Store): load validates
every placeholder of every pattern against the whitelist; any other
placeholder is a load-time TemplateSyntaxError. -/
def loadTemplate (t : PolicyTemplate) : Except TemplateError PolicyTemplate :=
  if t.patterns.all (fun p => p.parts.all partOk) then .ok t
  else .error .templateSyntaxError

/-- Modelled from the spec (7): startup loads every template in order and
refuses to start (propagates the first error) when any template fails
validation. -/
def startSystem : List PolicyTemplate → Except TemplateError (List PolicyTemplate)
  | [] => .ok []
  | t :: ts =>
    match loadTemplate t, startSystem ts with
    | .ok t2, .ok ts2 => .ok (t2 :: ts2)
    | .error e, _ => .error e
    | .ok _, .error e => .error e

/-- Union of the capability sets of every grant matching a path: the
effective capability set at that path within one template's resolved
grants. -/
def unionCaps (gs : List Grant) (path : List String) : List Cap :=
  ((gs.filter (fun g => segPre g.pre path)).map Grant.caps).flatten

end MatricAuth

namespace MatricAuth

/-- Resolving any identity against the standard-service role yields the
eight grants of the tenant-access policy with the identity's tenant_id
and user_id substituted, in stanza order. -/
theorem resolve_standard (i : Identity) : resolve i .standardService =
    [ ⟨["secret", "data", "tenants", i.tenant_id], capsCRUDL⟩,
      ⟨["secret", "metadata", "tenants", i.tenant_id], [.list]⟩,
      ⟨["secret", "data", "users", i.user_id], capsCRUDL⟩,
      ⟨["secret", "metadata", "users", i.user_id], [.list]⟩,
      ⟨["secret", "data", "common", "config"], [.read]⟩,
      ⟨["secret", "metadata"], [.list]⟩,
      ⟨["auth", "token", "lookup-self"], [.read]⟩,
      ⟨["auth", "token", "renew-self"], [.update]⟩ ] := rfl

/-- Resolving any identity against the monitor-service role yields the
eight grants of the read-only policy; no placeholder occurs, so no grant
depends on the identity. -/
theorem resolve_monitor (i : Identity) : resolve i .monitorService =
    [ ⟨["secret", "data"], [.read]⟩,
      ⟨["secret", "metadata"], [.list, .read]⟩,
      ⟨["auth", "token", "lookup-self"], [.read]⟩,
      ⟨["auth", "token", "renew-self"], [.update]⟩,
      ⟨["sys", "health"], [.read]⟩,
      ⟨["sys", "metrics"], [.read]⟩,
      ⟨["sys", "auth"], [.read]⟩,
      ⟨["sys", "mounts"], [.read]⟩ ] := rfl

/-- A grant list authorizes (path, op) exactly when some grant's concrete
segments are a path-segment prefix of the path and op is in its
capability set. -/
theorem allowedByGrants_iff (gs : List Grant) (path : List String) (op : Cap) :
    allowedByGrants gs path op = true ↔ ∃ g ∈ gs, g.pre <+: path ∧ op ∈ g.caps := by
  simp [allowedByGrants, grantAllows, segPre, capMem, List.any_eq_true,
    Bool.and_eq_true, decide_eq_true_iff]

/-- Pointwise non-matching grants give a non-matching grant list. -/
theorem allowedByGrants_false (gs : List Grant) (path : List String) (op : Cap)
    (h : ∀ g ∈ gs, grantAllows g path op = false) :
    allowedByGrants gs path op = false := by
  unfold allowedByGrants
  rw [List.any_eq_false]
  intro g hg
  simp [h g hg]

/-- The shared stanzas of the tenant-access policy are exactly its four
placeholder-free path patterns. -/
theorem sharedCovers_iff (path : List String) :
    sharedCovers tenantAccessTemplate path = true ↔
      ["secret", "data", "common", "config"] <+: path ∨ ["secret", "metadata"] <+: path ∨
      ["auth", "token", "lookup-self"] <+: path ∨ ["auth", "token", "renew-self"] <+: path := by
  simp [sharedCovers, tenantAccessTemplate, patLits, segPre, List.any_eq_true,
    decide_eq_true_iff]

/-- Any path covered by a standard-service grant lies under the tenant
subtree, the tenant metadata subtree, the user subtree, the user metadata
subtree, or a shared stanza. -/
theorem std_cover_cases (i : Identity) (path : List String)
    (h : ∃ g ∈ resolve i .standardService, g.pre <+: path) :
    (∃ r, path = "secret" :: "data" :: "tenants" :: i.tenant_id :: r) ∨
    (∃ r, path = "secret" :: "metadata" :: "tenants" :: i.tenant_id :: r) ∨
    (∃ r, path = "secret" :: "data" :: "users" :: i.user_id :: r) ∨
    (∃ r, path = "secret" :: "metadata" :: "users" :: i.user_id :: r) ∨
    sharedCovers tenantAccessTemplate path = true := by
  rw [resolve_standard] at h
  obtain ⟨g, hg, hpre⟩ := h
  simp only [List.mem_cons, List.not_mem_nil, or_false] at hg
  rcases hg with rfl | rfl | rfl | rfl | rfl | rfl | rfl | rfl
  · exact Or.inl (by obtain ⟨r, hr⟩ := hpre; exact ⟨r, hr.symm⟩)
  · exact Or.inr (Or.inl (by obtain ⟨r, hr⟩ := hpre; exact ⟨r, hr.symm⟩))
  · exact Or.inr (Or.inr (Or.inl (by obtain ⟨r, hr⟩ := hpre; exact ⟨r, hr.symm⟩)))
  · exact Or.inr (Or.inr (Or.inr (Or.inl (by obtain ⟨r, hr⟩ := hpre; exact ⟨r, hr.symm⟩))))
  · exact Or.inr (Or.inr (Or.inr (Or.inr ((sharedCovers_iff path).mpr (Or.inl hpre)))))
  · exact Or.inr (Or.inr (Or.inr (Or.inr ((sharedCovers_iff path).mpr (Or.inr (Or.inl hpre))))))
  · exact Or.inr (Or.inr (Or.inr (Or.inr
      ((sharedCovers_iff path).mpr (Or.inr (Or.inr (Or.inl hpre)))))))
  · exact Or.inr (Or.inr (Or.inr (Or.inr
      ((sharedCovers_iff path).mpr (Or.inr (Or.inr (Or.inr hpre)))))))

end MatricAuth

namespace MatricAuth

/-- C1 counterexample: two identities in different tenants but with the
same user_id both resolve a grant covering the same user secret path,
which no shared stanza covers, so the claimed disjointness of grant
paths across tenants fails as stated. -/
theorem C1_counterexample :
    (⟨"svc-a", "tenant-001", "user-123"⟩ : Identity).tenant_id ≠
      (⟨"svc-b", "tenant-002", "user-123"⟩ : Identity).tenant_id ∧
    (∃ g ∈ resolve ⟨"svc-a", "tenant-001", "user-123"⟩ .standardService,
      g.pre <+: ["secret", "data", "users", "user-123", "api-keys"]) ∧
    (∃ g ∈ resolve ⟨"svc-b", "tenant-002", "user-123"⟩ .standardService,
      g.pre <+: ["secret", "data", "users", "user-123", "api-keys"]) ∧
    sharedCovers tenantAccessTemplate
      ["secret", "data", "users", "user-123", "api-keys"] = false := by
  decide

/-- C1 (amended): for standard-service identities with different
tenant_id AND different user_id, any path covered by both resolved grant
lists is covered by a shared (placeholder-free) stanza of the
tenant-access policy, and authorize on the other tenant's secret subtree
is Deny at every decision time. -/
theorem C1_tenant_isolation (A B : Identity)
    (ht : A.tenant_id ≠ B.tenant_id) (hu : A.user_id ≠ B.user_id) :
    (∀ path : List String,
      (∃ g ∈ resolve A .standardService, g.pre <+: path) →
      (∃ g ∈ resolve B .standardService, g.pre <+: path) →
      sharedCovers tenantAccessTemplate path = true) ∧
    (∀ n n2 rest, authorize (issue A .standardService n) n2
      ("secret" :: "data" :: "tenants" :: B.tenant_id :: rest) .read = .deny) := by
  constructor
  · intro path hA hB
    rcases std_cover_cases A path hA with ⟨r1, rfl⟩ | ⟨r1, rfl⟩ | ⟨r1, rfl⟩ | ⟨r1, rfl⟩ | hs <;>
      [ rcases std_cover_cases B _ hB with ⟨r2, he⟩ | ⟨r2, he⟩ | ⟨r2, he⟩ | ⟨r2, he⟩ | hs2;
        rcases std_cover_cases B _ hB with ⟨r2, he⟩ | ⟨r2, he⟩ | ⟨r2, he⟩ | ⟨r2, he⟩ | hs2;
        rcases std_cover_cases B _ hB with ⟨r2, he⟩ | ⟨r2, he⟩ | ⟨r2, he⟩ | ⟨r2, he⟩ | hs2;
        rcases std_cover_cases B _ hB with ⟨r2, he⟩ | ⟨r2, he⟩ | ⟨r2, he⟩ | ⟨r2, he⟩ | hs2;
        exact hs ] <;>
      simp_all
  · intro n n2 rest
    have hfalse : allowedByGrants (resolve A .standardService)
        ("secret" :: "data" :: "tenants" :: B.tenant_id :: rest) .read = false := by
      simp [resolve_standard, allowedByGrants, grantAllows, segPre, capMem,
        List.cons_prefix_cons, capsCRUDL]
      exact ht
    unfold authorize
    rw [show (issue A .standardService n).grants = resolve A .standardService from rfl, hfalse]
    simp

/-- C1 witness: concrete identities in different tenants with different
user ids; the only doubly-covered example path is shared, and reading the
other tenant's secret is denied. -/
theorem C1_tenant_isolation_witness :
    sharedCovers tenantAccessTemplate ["secret", "data", "common", "config"] = true ∧
    authorize (issue ⟨"a", "t1", "u1"⟩ .standardService 0) 5
      ["secret", "data", "tenants", "t2", "db"] .read = .deny :=
  ⟨(C1_tenant_isolation ⟨"a", "t1", "u1"⟩ ⟨"b", "t2", "u2"⟩ (by decide) (by decide)).1
      ["secret", "data", "common", "config"] (by decide) (by decide),
    (C1_tenant_isolation ⟨"a", "t1", "u1"⟩ ⟨"b", "t2", "u2"⟩ (by decide) (by decide)).2 0 5 ["db"]⟩

/-- C2: when no grant in the token's grant list matches the requested
path with the requested capability, authorize returns Deny: a total
function into allow/deny, never an error. -/
theorem C2_deny_by_default (t : ScopedToken) (now : Nat) (path : List String) (op : Cap)
    (h : ∀ g ∈ t.grants, grantAllows g path op = false) :
    authorize t now path op = .deny := by
  unfold authorize
  rw [allowedByGrants_false t.grants path op h]
  simp

/-- C2 witness: a standard-service token, an unmatched path, and the deny
decision. -/
theorem C2_deny_by_default_witness :
    (∀ g ∈ (issue ⟨"a", "t1", "u1"⟩ .standardService 0).grants,
      grantAllows g ["unknown", "path"] .read = false) ∧
    authorize (issue ⟨"a", "t1", "u1"⟩ .standardService 0) 1 ["unknown", "path"] .read = .deny :=
  ⟨by decide, C2_deny_by_default _ 1 _ _ (by decide)⟩

/-- C3: on a non-revoked, non-expired token, authorize returns Allow iff
some grant's concrete segments are a path-segment-aware prefix of the
requested path and the operation is in that grant's capability set; and
segment-aware matching rejects tenants/tenant-001 against
tenants/tenant-001x. -/
theorem C3_allow_iff_prefix_grant (t : ScopedToken) (now : Nat) (path : List String) (op : Cap)
    (h1 : t.revoked = false) (h2 : now < t.expires_at) :
    (authorize t now path op = .allow ↔ ∃ g ∈ t.grants, g.pre <+: path ∧ op ∈ g.caps) ∧
      segPre ["tenants", "tenant-001"] ["tenants", "tenant-001x"] = false := by
  refine ⟨?_, by decide⟩
  rw [← allowedByGrants_iff]
  unfold authorize
  rw [h1]
  simp only [Bool.false_eq_true, if_false]
  rw [if_neg (Nat.not_le.mpr h2)]
  rcases hb : allowedByGrants t.grants path op <;> simp [hb]

/-- C3 witness: the iff at a live standard-service token and concrete
path, plus the segment-aware rejection. -/
theorem C3_allow_iff_prefix_grant_witness :
    (authorize (issue ⟨"a", "t1", "u1"⟩ .standardService 0) 5
        ["secret", "data", "tenants", "t1", "db"] .update = .allow ↔
      ∃ g ∈ (issue ⟨"a", "t1", "u1"⟩ .standardService 0).grants,
        g.pre <+: ["secret", "data", "tenants", "t1", "db"] ∧ Cap.update ∈ g.caps) ∧
      segPre ["tenants", "tenant-001"] ["tenants", "tenant-001x"] = false :=
  C3_allow_iff_prefix_grant _ 5 _ _ (by decide) (by decide)

/-- C4: a successful renew never shortens the expiry of a token whose
current expiry honours the renewal formula, and never pushes it past
issuance plus max_ttl; a token with ttl 15m and max_ttl 1h renewed at 14m
elapsed gets expiry = issuance + min(14m + 15m, 1h). -/
theorem C4_renew_expiry_monotone (t : ScopedToken) (now : Nat) (t2 : ScopedToken)
    (h0 : t.issued_at ≤ now) (h1 : t.expires_at ≤ now + t.ttl)
    (h2 : t.expires_at ≤ t.issued_at + t.max_ttl)
    (hr : renew t now = some t2) :
    (t.expires_at ≤ t2.expires_at ∧ t2.expires_at ≤ t.issued_at + t.max_ttl) ∧
      (renew ⟨0, [], 0, 15, 60, 15, true, false⟩ 14).map ScopedToken.expires_at =
        some (0 + min (14 + 15) 60) := by
  refine ⟨?_, by decide⟩
  unfold renew at hr
  split at hr
  · exact absurd hr (by simp)
  · obtain rfl : t2 = _ := (Option.some.inj hr).symm
    simp only []
    constructor
    · omega
    · omega

/-- C4 witness: the scenario token itself. -/
theorem C4_renew_expiry_monotone_witness :
    ((⟨0, [], 0, 15, 60, 15, true, false⟩ : ScopedToken).expires_at ≤
        (⟨0, [], 0, 15, 60, 29, true, false⟩ : ScopedToken).expires_at ∧
      (⟨0, [], 0, 15, 60, 29, true, false⟩ : ScopedToken).expires_at ≤
        (⟨0, [], 0, 15, 60, 15, true, false⟩ : ScopedToken).issued_at +
          (⟨0, [], 0, 15, 60, 15, true, false⟩ : ScopedToken).max_ttl) ∧
      (renew ⟨0, [], 0, 15, 60, 15, true, false⟩ 14).map ScopedToken.expires_at =
        some (0 + min (14 + 15) 60) :=
  C4_renew_expiry_monotone _ 14 _ (by decide) (by decide) (by decide) (by decide)

/-- C5: after revoke, every authorize decision is Deny at every decision
time regardless of remaining TTL, revoke is idempotent, and the revoked
state is terminal (renew fails on it). -/
theorem C5_revocation_final (t : ScopedToken) (now now2 : Nat) (path : List String) (op : Cap) :
    authorize (revoke t) now path op = .deny ∧ revoke (revoke t) = revoke t ∧
      renew (revoke t) now2 = none := by
  refine ⟨?_, rfl, ?_⟩
  · simp [authorize, revoke]
  · simp [renew, revoke]

/-- C6: resolution is deterministic: it depends on nothing but the
substitutable claims and the role, with no hidden time or randomness, so
identical (identity, role) inputs give identical grant lists in
identical order. -/
theorem C6_resolve_deterministic (i i2 : Identity) (r : Role)
    (h1 : i.tenant_id = i2.tenant_id) (h2 : i.user_id = i2.user_id) :
    resolve i r = resolve i2 r := by
  cases r with
  | standardService => rw [resolve_standard, resolve_standard, h1, h2]
  | adminService => rfl
  | monitorService => rfl

/-- C6 witness: two identities equal on the substituted claims resolve to
the same grant list. -/
theorem C6_resolve_deterministic_witness :
    resolve ⟨"svc-a", "t1", "u1"⟩ .standardService =
      resolve ⟨"svc-b", "t1", "u1"⟩ .standardService :=
  C6_resolve_deterministic ⟨"svc-a", "t1", "u1"⟩ ⟨"svc-b", "t1", "u1"⟩ .standardService
    (by decide) (by decide)

/-- C7: the spec's concrete scenario: identity (t1, u1) with the scenario
template resolves to the tenant grant with create/read/update/delete/list
and the common/config read grant; update under the own tenant is Allow,
read under another tenant is Deny, update on common/config is Deny. -/
theorem C7_scenario_standard :
    resolveTemplate ⟨"u1", "t1", "u1"⟩ scenarioTemplate =
      [⟨["tenants", "t1"], capsCRUDL⟩, ⟨["common", "config"], [.read]⟩] ∧
    authorize ⟨0, resolveTemplate ⟨"u1", "t1", "u1"⟩ scenarioTemplate, 0, 15, 60, 15, true, false⟩
      1 ["tenants", "t1", "db"] .update = .allow ∧
    authorize ⟨0, resolveTemplate ⟨"u1", "t1", "u1"⟩ scenarioTemplate, 0, 15, 60, 15, true, false⟩
      1 ["tenants", "t2", "db"] .read = .deny ∧
    authorize ⟨0, resolveTemplate ⟨"u1", "t1", "u1"⟩ scenarioTemplate, 0, 15, 60, 15, true, false⟩
      1 ["common", "config"] .update = .deny := by
  decide

/-- C8: within one template's resolved grants, the decision applies the
union of capability sets over all matching grants; and a token's decision
is a function of its own role's template and grants alone, so
capabilities are never combined across roles/templates. -/
theorem C8_union_within_template :
    (∀ (gs : List Grant) (path : List String) (op : Cap),
      allowedByGrants gs path op = true ↔ op ∈ unionCaps gs path) ∧
    (∀ (i : Identity) (r : Role) (n n2 : Nat) (path : List String) (op : Cap),
      authorize (issue i r n) n2 path op =
        if n2 < n + roleTtl r ∧
            allowedByGrants (resolveTemplate i (roleTemplate r)) path op = true
        then .allow else .deny) := by
  constructor
  · intro gs path op
    rw [allowedByGrants_iff]
    simp only [unionCaps, List.mem_flatten, List.mem_map, List.mem_filter, segPre,
      decide_eq_true_iff]
    constructor
    · rintro ⟨g, hg, hpre, hop⟩
      exact ⟨g.caps, ⟨g, ⟨hg, hpre⟩, rfl⟩, hop⟩
    · rintro ⟨l, ⟨g, ⟨hg, hpre⟩, rfl⟩, hop⟩
      exact ⟨g, hg, hpre, hop⟩
  · intro i r n n2 path op
    rcases Nat.lt_or_ge n2 (n + roleTtl r) with h | h
    · rcases hb : allowedByGrants (resolveTemplate i (roleTemplate r)) path op
      · simp [authorize, issue, resolve, Nat.not_le.mpr h, hb, h]
      · simp [authorize, issue, resolve, Nat.not_le.mpr h, hb, h]
    · simp [authorize, issue, resolve, h, Nat.not_lt.mpr h]

/-- C9: template loading succeeds exactly when every placeholder is in
the whitelist (tenant_id, user_id); a template referencing
nonexistent_claim loads to TemplateSyntaxError; the three source policies
load; and startup propagates any load error, refusing to start. -/
theorem C9_template_load_validation :
    (∀ t : PolicyTemplate,
      loadTemplate t = .ok t ↔ t.patterns.all (fun p => p.parts.all partOk) = true) ∧
    loadTemplate ⟨[⟨[.lit "cfg", .claim "nonexistent_claim"], [.read]⟩]⟩ =
      .error .templateSyntaxError ∧
    startSystem [tenantAccessTemplate, serviceAdminTemplate, readOnlyTemplate] =
      .ok [tenantAccessTemplate, serviceAdminTemplate, readOnlyTemplate] ∧
    (∀ ts : List PolicyTemplate, ∀ t ∈ ts, loadTemplate t = .error .templateSyntaxError →
      startSystem ts = .error .templateSyntaxError) := by
  refine ⟨?_, by rfl, by rfl, ?_⟩
  · intro t
    unfold loadTemplate
    split_ifs with h
    · simp [h]
    · simp [h]
  · intro ts t ht herr
    induction ts with
    | nil => simp at ht
    | cons hd tl ih =>
      rcases List.mem_cons.mp ht with rfl | hmem
      · simp [startSystem, herr]
      · have htl := ih hmem
        unfold startSystem
        rw [htl]
        rcases hh : loadTemplate hd with e | t2
        · cases e
          rfl
        · rfl

/-- C9 witness: a system holding one good and one bad template refuses to
start with TemplateSyntaxError. -/
theorem C9_template_load_validation_witness :
    startSystem [tenantAccessTemplate, ⟨[⟨[.lit "cfg", .claim "nonexistent_claim"], [.read]⟩]⟩] =
      .error .templateSyntaxError :=
  C9_template_load_validation.2.2.2
    [tenantAccessTemplate, ⟨[⟨[.lit "cfg", .claim "nonexistent_claim"], [.read]⟩]⟩]
    ⟨[⟨[.lit "cfg", .claim "nonexistent_claim"], [.read]⟩]⟩ (by decide) (by rfl)

/-- C10: a live monitor-service token may read any path under
secret/data, any tenant's included, while create, update and delete
there are denied at every decision time: its read-only grants are not
tenant-scoped. -/
theorem C10_monitor_reads_all_tenants (i : Identity) (n now : Nat) (rest : List String)
    (h2 : now < n + 30) :
    authorize (issue i .monitorService n) now ("secret" :: "data" :: rest) .read = .allow ∧
    (∀ now2, authorize (issue i .monitorService n) now2
      ("secret" :: "data" :: rest) .create = .deny) ∧
    (∀ now2, authorize (issue i .monitorService n) now2
      ("secret" :: "data" :: rest) .update = .deny) ∧
    (∀ now2, authorize (issue i .monitorService n) now2
      ("secret" :: "data" :: rest) .delete = .deny) := by
  have hd : ∀ op, op = Cap.create ∨ op = Cap.update ∨ op = Cap.delete →
      ∀ now2, authorize (issue i .monitorService n) now2
        ("secret" :: "data" :: rest) op = .deny := by
    intro op hop now2
    have hfalse : allowedByGrants (resolve i .monitorService)
        ("secret" :: "data" :: rest) op = false := by
      rcases hop with rfl | rfl | rfl <;>
        simp [resolve_monitor, allowedByGrants, grantAllows, segPre, capMem,
          List.cons_prefix_cons]
    unfold authorize
    rw [show (issue i .monitorService n).grants = resolve i .monitorService from rfl, hfalse]
    simp
  refine ⟨?_, hd .create (Or.inl rfl), hd .update (Or.inr (Or.inl rfl)),
    hd .delete (Or.inr (Or.inr rfl))⟩
  simp [authorize, issue, resolve_monitor, roleTtl, allowedByGrants, grantAllows,
    segPre, capMem, List.cons_prefix_cons, Nat.not_le.mpr h2]

/-- C10 witness: a monitor token of tenant t1 reads tenant t2's database
secret but cannot write or delete it. -/
theorem C10_monitor_reads_all_tenants_witness :
    authorize (issue ⟨"mon", "t1", "u1"⟩ .monitorService 0) 5
      ["secret", "data", "tenants", "t2", "db"] .read = .allow ∧
    authorize (issue ⟨"mon", "t1", "u1"⟩ .monitorService 0) 5
      ["secret", "data", "tenants", "t2", "db"] .create = .deny ∧
    authorize (issue ⟨"mon", "t1", "u1"⟩ .monitorService 0) 5
      ["secret", "data", "tenants", "t2", "db"] .update = .deny ∧
    authorize (issue ⟨"mon", "t1", "u1"⟩ .monitorService 0) 5
      ["secret", "data", "tenants", "t2", "db"] .delete = .deny :=
  ⟨(C10_monitor_reads_all_tenants ⟨"mon", "t1", "u1"⟩ 0 5 ["tenants", "t2", "db"] (by decide)).1,
    (C10_monitor_reads_all_tenants ⟨"mon", "t1", "u1"⟩ 0 5 ["tenants", "t2", "db"] (by decide)).2.1 5,
    (C10_monitor_reads_all_tenants ⟨"mon", "t1", "u1"⟩ 0 5 ["tenants", "t2", "db"] (by decide)).2.2.1 5,
    (C10_monitor_reads_all_tenants ⟨"mon", "t1", "u1"⟩ 0 5 ["tenants", "t2", "db"] (by decide)).2.2.2 5⟩

end MatricAuth
